import Mathlib

set_option maxRecDepth 4096

/-!
Verification of the ReAct-style decision engine
(`brainstorming/agents/ruv_react_decision_engine.py`).

Shallow embedding conventions:
* Python numbers are modelled exactly: `int` as `ℤ`, `float` as `ℚ`
  (IEEE-754 rounding is not modelled; every numeric input appearing in
  the claims is far from any comparison threshold, so the exact-rational
  semantics and the floating-point semantics agree on them).
* Python `None`-able fields are `Option`s; absent dictionary keys are
  `none`.
* The two regular expressions of `run_agent`
  (`Answer:\s*(.*)$` and `Action:\s*([^\[]+)\[([^\]]+)\]`) are embedded
  as executable search functions with CPython `re.search` semantics
  (leftmost match, greedy quantifiers, `$` matching at end of string or
  just before a final newline, `.` not matching newline).
* The completion backend (`requests.post` to Gemini/OpenRouter) is an
  external effect; it is modelled as an oracle
  `List ChatMessage → String`, which is exactly the interface
  `run_agent` consumes (both `call_gemini` and `call_openrouter`
  return plain strings, errors included).
-/

/-! ## Python string helpers -/

/-- The ASCII whitespace characters recognised by Python's `str.strip()`
and by the regex class `\s` (the inputs in this development are ASCII). -/
def pyWhite (c : Char) : Bool :=
  c == ' ' || c == '\t' || c == '\n' || c == '\r' || c == '\x0b' || c == '\x0c'

/-- Python `str.strip()` on a character list: drop whitespace from both ends. -/
def pyStripL (l : List Char) : List Char :=
  ((l.dropWhile pyWhite).reverse.dropWhile pyWhite).reverse

/-- Python `str.strip()`. -/
def pyStrip (s : String) : String := ⟨pyStripL s.data⟩

/-- Substring test on character lists (Python's `in` on strings). -/
def containsSub (pat : List Char) : List Char → Bool
  | [] => pat.isEmpty
  | c :: rest => pat.isPrefixOf (c :: rest) || containsSub pat rest

/-- Substring test on strings. -/
def strContains (s pat : String) : Bool := containsSub pat.data s.data

/-! ## Python numeric values

`eval` on the calculator's whitelisted characters can only produce
`int` and `float` values (plus the degenerate tuple syntax `()`,
which lies outside the arithmetic fragment specified and is not
modelled).  `int` is exact; `float` is modelled as an exact rational. -/

/-- A Python number: an `int` or a `float` (modelled exactly as `ℚ`). -/
inductive PyNum
  | int (n : ℤ)
  | float (q : ℚ)
deriving DecidableEq

/-- Numeric value of a `PyNum` as a rational. -/
def PyNum.toQ : PyNum → ℚ
  | .int n => (n : ℚ)
  | .float q => q

/-- Whether the value is a Python `float`. -/
def PyNum.isFloat : PyNum → Bool
  | .int _ => false
  | .float _ => true

/-- Result of evaluating / parsing: a value or a Python error message. -/
inductive ERes (α : Type)
  | ok (v : α)
  | err (m : String)
deriving DecidableEq

instance : Monad ERes where
  pure := ERes.ok
  bind r f := match r with
    | .ok v => f v
    | .err m => .err m

/-- Map over the success value. -/
def ERes.map {α β : Type} (f : α → β) : ERes α → ERes β
  | .ok v => .ok (f v)
  | .err m => .err m

/-- Python `+`: `int + int` is `int`, otherwise `float`. -/
def addNum : PyNum → PyNum → PyNum
  | .int a, .int b => .int (a + b)
  | a, b => .float (a.toQ + b.toQ)

/-- Python binary `-`. -/
def subNum : PyNum → PyNum → PyNum
  | .int a, .int b => .int (a - b)
  | a, b => .float (a.toQ - b.toQ)

/-- Python `*`. -/
def mulNum : PyNum → PyNum → PyNum
  | .int a, .int b => .int (a * b)
  | a, b => .float (a.toQ * b.toQ)

/-- Python unary `-`. -/
def negNum : PyNum → PyNum
  | .int a => .int (-a)
  | .float q => .float (-q)

/-- Python true division `/`: always a `float`; raises
`ZeroDivisionError` on a zero divisor, with the message CPython uses
for the operand types. -/
def divNum (a b : PyNum) : ERes PyNum :=
  if b.toQ = 0 then
    .err (if a.isFloat || b.isFloat then "float division by zero" else "division by zero")
  else
    .ok (.float (a.toQ / b.toQ))

/-- Python floor division `//`: `int // int` is `int`, otherwise a
`float` holding the floor; raises `ZeroDivisionError` on zero. -/
def floordivNum (a b : PyNum) : ERes PyNum :=
  match a, b with
  | .int x, .int y =>
      if y = 0 then .err "integer division or modulo by zero"
      else .ok (.int (Int.fdiv x y))
  | a, b =>
      if b.toQ = 0 then .err "float floor division by zero"
      else .ok (.float ((⌊a.toQ / b.toQ⌋ : ℤ) : ℚ))

/-- Python `**` on the values reachable here.  An integer-valued
exponent is computed exactly; a float exponent with a fractional part
would in general be irrational and lies outside the exact-rational
fragment modelled (no claim exercises it). -/
def powNum (a b : PyNum) : ERes PyNum :=
  let pow₁ (e : ℤ) : ERes PyNum :=
    if 0 ≤ e then
      match a with
      | .int n => .ok (.int (n ^ e.toNat))
      | .float q => .ok (.float (q ^ e.toNat))
    else
      if a.toQ = 0 then .err "0.0 cannot be raised to a negative power"
      else .ok (.float (a.toQ ^ e))
  match b with
  | .int e => pow₁ e
  | .float f =>
      if f.den = 1 then
        -- an integer-valued float exponent yields a float result
        match pow₁ f.num with
        | .ok v => .ok (.float v.toQ)
        | .err m => .err m
      else .err "irrational power outside the modelled fragment"

/-! ## The Arithmetic Tool (`calculator_run`)

The source guards the input with the character whitelist
`"0123456789.+-*/() "` and then hands it to `eval`.  On that alphabet
`eval` is an arithmetic-expression interpreter: numeric literals,
parentheses, unary `+`/`-`, and the binary operators `+ - * / // **`
with Python's precedence (`**` binds tightest and right-associates
with unary operators on its right; `* / //` bind tighter than `+ -`;
all left-associative).  The embedding below implements exactly that
fragment with a lexer and a recursive-descent parser. -/

/-- Python's generic `SyntaxError` text (as produced by `str(exc)` for
an `eval` of an invalid expression). -/
def synErrMsg : String := "invalid syntax (<string>, line 1)"

/-- Tokens of the whitelisted arithmetic fragment. -/
inductive Tok
  | num (v : PyNum)
  | plus | minus | star | slash | dstar | dslash | lparen | rparen
deriving DecidableEq

/-- Numeric value of a digit character. -/
def digitVal (c : Char) : ℕ := c.toNat - 48

/-- Natural number denoted by a digit string. -/
def digitsToNat (l : List Char) : ℕ :=
  l.foldl (fun a c => a * 10 + digitVal c) 0

/-- Lex one numeric literal from a maximal run of digits and dots.
Mirrors CPython: an `int` literal may not have leading zeros (unless
it is all zeros); a `float` literal needs at least one digit and at
most one dot. -/
def lexNumber (run : List Char) : ERes PyNum :=
  let dots := (run.filter (fun c => c == '.')).length
  let digits := run.filter Char.isDigit
  if digits.isEmpty then .err synErrMsg
  else if dots = 0 then
    if run.length > 1 && run.headI = '0' && !(run.all (fun c => c == '0')) then
      .err synErrMsg
    else .ok (.int (digitsToNat run : ℤ))
  else if dots = 1 then
    let ip := run.takeWhile (fun c => c ≠ '.')
    let fp := (run.dropWhile (fun c => c ≠ '.')).drop 1
    .ok (.float ((digitsToNat ip : ℚ) + (digitsToNat fp : ℚ) / (10 ^ fp.length : ℚ)))
  else .err synErrMsg

/-- Tokenizer for the whitelisted alphabet (fuel-driven; the fuel is
always at least the number of remaining characters). -/
def tokenizeAux : ℕ → List Char → ERes (List Tok)
  | _, [] => .ok []
  | 0, _ => .err synErrMsg
  | fuel + 1, c :: rest =>
    if c = ' ' then tokenizeAux fuel rest
    else if c = '(' then (tokenizeAux fuel rest).map (Tok.lparen :: ·)
    else if c = ')' then (tokenizeAux fuel rest).map (Tok.rparen :: ·)
    else if c = '+' then (tokenizeAux fuel rest).map (Tok.plus :: ·)
    else if c = '-' then (tokenizeAux fuel rest).map (Tok.minus :: ·)
    else if c = '*' then
      match rest with
      | '*' :: r2 => (tokenizeAux fuel r2).map (Tok.dstar :: ·)
      | _ => (tokenizeAux fuel rest).map (Tok.star :: ·)
    else if c = '/' then
      match rest with
      | '/' :: r2 => (tokenizeAux fuel r2).map (Tok.dslash :: ·)
      | _ => (tokenizeAux fuel rest).map (Tok.slash :: ·)
    else
      -- digit or '.', by the whitelist
      let run := (c :: rest).takeWhile (fun d => d.isDigit || d = '.')
      match lexNumber run with
      | .ok v => (tokenizeAux fuel ((c :: rest).drop run.length)).map (Tok.num v :: ·)
      | .err m => .err m

def tokenize (l : List Char) : ERes (List Tok) := tokenizeAux (l.length + 1) l

/-- Abstract syntax of the arithmetic fragment. -/
inductive AExpr
  | lit (v : PyNum)
  | neg (e : AExpr)
  | pos (e : AExpr)
  | add (a b : AExpr)
  | sub (a b : AExpr)
  | mul (a b : AExpr)
  | div (a b : AExpr)
  | floordiv (a b : AExpr)
  | pow (a b : AExpr)
deriving DecidableEq

/-- Parser modes (one per grammar level; the `Rest` modes carry the
left operand of a left-associative chain). -/
inductive PMode
  | addE | addRest (e : AExpr) | mulE | mulRest (e : AExpr)
  | factor | power | atom

/-- Recursive-descent parser for Python's arithmetic grammar on the
whitelisted tokens, written as a single fuel-structural function so
the kernel can evaluate it:
`addE := mulE (('+'|'-') mulE)*`;
`mulE := factor (('*'|'/'|'//') factor)*`;
`factor := ('+'|'-') factor | power`;
`power := atom ('**' factor)?`;
`atom := number | '(' addE ')'`. -/
def parseM : ℕ → PMode → List Tok → ERes (AExpr × List Tok)
  | 0, _, _ => .err synErrMsg
  | f + 1, .addE, ts => do
      let (e, ts) ← parseM f .mulE ts
      parseM f (.addRest e) ts
  | f + 1, .addRest e, .plus :: ts => do
      let (r, ts) ← parseM f .mulE ts
      parseM f (.addRest (.add e r)) ts
  | f + 1, .addRest e, .minus :: ts => do
      let (r, ts) ← parseM f .mulE ts
      parseM f (.addRest (.sub e r)) ts
  | _ + 1, .addRest e, ts => .ok (e, ts)
  | f + 1, .mulE, ts => do
      let (e, ts) ← parseM f .factor ts
      parseM f (.mulRest e) ts
  | f + 1, .mulRest e, .star :: ts => do
      let (r, ts) ← parseM f .factor ts
      parseM f (.mulRest (.mul e r)) ts
  | f + 1, .mulRest e, .slash :: ts => do
      let (r, ts) ← parseM f .factor ts
      parseM f (.mulRest (.div e r)) ts
  | f + 1, .mulRest e, .dslash :: ts => do
      let (r, ts) ← parseM f .factor ts
      parseM f (.mulRest (.floordiv e r)) ts
  | _ + 1, .mulRest e, ts => .ok (e, ts)
  | f + 1, .factor, .plus :: ts => do
      let (e, ts) ← parseM f .factor ts
      pure (.pos e, ts)
  | f + 1, .factor, .minus :: ts => do
      let (e, ts) ← parseM f .factor ts
      pure (.neg e, ts)
  | f + 1, .factor, ts => parseM f .power ts
  | f + 1, .power, ts => do
      let (a, ts) ← parseM f .atom ts
      match ts with
      | .dstar :: ts2 => do
          let (b, ts3) ← parseM f .factor ts2
          pure (.pow a b, ts3)
      | _ => pure (a, ts)
  | _ + 1, .atom, .num v :: ts => .ok (.lit v, ts)
  | f + 1, .atom, .lparen :: ts => do
      let (e, ts) ← parseM f .addE ts
      match ts with
      | .rparen :: ts2 => pure (e, ts2)
      | _ => .err synErrMsg
  | _ + 1, .atom, _ => .err synErrMsg

/-- Evaluate an arithmetic AST, propagating Python runtime errors
(left operand evaluated first, as in CPython). -/
def evalAExpr : AExpr → ERes PyNum
  | .lit v => .ok v
  | .pos e => do
      let x ← evalAExpr e
      pure x
  | .neg e => do
      let x ← evalAExpr e
      pure (negNum x)
  | .add a b => do
      let x ← evalAExpr a
      let y ← evalAExpr b
      pure (addNum x y)
  | .sub a b => do
      let x ← evalAExpr a
      let y ← evalAExpr b
      pure (subNum x y)
  | .mul a b => do
      let x ← evalAExpr a
      let y ← evalAExpr b
      pure (mulNum x y)
  | .div a b => do
      let x ← evalAExpr a
      let y ← evalAExpr b
      divNum x y
  | .floordiv a b => do
      let x ← evalAExpr a
      let y ← evalAExpr b
      floordivNum x y
  | .pow a b => do
      let x ← evalAExpr a
      let y ← evalAExpr b
      powNum x y

/-- The behaviour of Python `eval` on a whitelisted arithmetic string:
tokenize, parse a full expression, evaluate. -/
def pyEval (s : String) : ERes PyNum := do
  let ts ← tokenize s.data
  match parseM (10 * (ts.length + 1)) .addE ts with
  | .ok (e, []) => evalAExpr e
  | .ok (_, _ :: _) => .err synErrMsg
  | .err m => .err m

/-- Decimal digits of the fractional part of a nonnegative rational
(up to a digit budget; exact whenever the expansion terminates). -/
def fracDigits : ℕ → ℚ → List Char
  | 0, _ => []
  | n + 1, f =>
      if f = 0 then []
      else
        let t := f * 10
        let d := ⌊t⌋
        Char.ofNat (48 + d.toNat) :: fracDigits n (t - (d : ℚ))

/-- Rendering (`str`) of a Python float, abstracted over IEEE-754: the exact
decimal expansion of the rational (integer-valued floats print with a
trailing `.0`, as CPython does).  Exact for every value appearing in
the claims. -/
def floatRepr (q : ℚ) : String :=
  if q.den = 1 then toString q.num ++ ".0"
  else
    let sign := if q < 0 then "-" else ""
    let a := |q|
    let ip := ⌊a⌋
    let frac := fracDigits 30 (a - (ip : ℚ))
    sign ++ toString ip ++ "." ++ ⟨frac⟩

/-- Rendering (`str`) of a Python number. -/
def pyStr : PyNum → String
  | .int n => toString n
  | .float q => floatRepr q

/-- The character whitelist of the Arithmetic Tool
(`"0123456789.+-*/() "` in the source). -/
def calcWhitelist : List Char := "0123456789.+-*/() ".data

/-- The source's `calculator_run`: reject any character outside the
whitelist with `"Invalid expression"`; otherwise `eval` the expression,
returning `str(result)` on success and `f"Error: {exc}"` on any raised
exception. -/
def calculator_run (expression : String) : String :=
  if expression.data.all (fun ch => calcWhitelist.contains ch) then
    match pyEval expression with
    | .ok v => pyStr v
    | .err m => "Error: " ++ m
  else "Invalid expression"

/-! ## The reply-marker regular expressions

`run_agent` parses each assistant reply with
`re.search(r"Answer:\s*(.*)$", reply)` and, failing that,
`re.search(r"Action:\s*([^\[]+)\[([^\]]+)\]", reply)`.
The functions below implement CPython `re.search` semantics for these
two patterns: scan for the leftmost occurrence of the literal prefix
whose tail admits a match, with greedy quantifiers; for the first
pattern `\s` includes the newline, `.` excludes it, and `$` matches at
the end of the string or just before a terminal newline. -/

/-- Tail match for `\s*(.*)$` after an `Answer:` occurrence: greedy
`\s*` consumes the maximal whitespace prefix; the capture is the rest,
which must not contain a newline except for an optional terminal one
(consumed by `$`).  Returns the captured group, or `none` when no
split matches. -/
def answerTail (t : List Char) : Option (List Char) :=
  let k := t.dropWhile pyWhite
  if k.isEmpty then some []
  else
    let c := if k.getLast? == some '\n' then k.dropLast else k
    if c.any (fun ch => ch == '\n') then none else some c

/-- Leftmost search for `Answer:\s*(.*)$`; returns group 1. -/
def findAnswer : List Char → Option (List Char)
  | [] => none
  | c :: rest =>
    if "Answer:".data.isPrefixOf (c :: rest) then
      match answerTail ((c :: rest).drop 7) with
      | some cap => some cap
      | none => findAnswer rest
    else findAnswer rest

/-- Tail match for `\s*([^\[]+)\[([^\]]+)\]` after an `Action:`
occurrence.  The span up to the first `[` is `\s*` plus group 1 (which
must be nonempty); group 2 is the nonempty span between that `[` and
the first following `]`.  Group 1 is returned including its leading
whitespace (the caller strips it, as the source does). -/
def actionTail (t : List Char) : Option (List Char × List Char) :=
  let g1 := t.takeWhile (fun ch => ch ≠ '[')
  if g1.isEmpty then none
  else
    match t.drop g1.length with
    | '[' :: after =>
      let g2 := after.takeWhile (fun ch => ch ≠ ']')
      if g2.isEmpty then none
      else
        match after.drop g2.length with
        | ']' :: _ => some (g1, g2)
        | _ => none
    | _ => none

/-- Leftmost search for `Action:\s*([^\[]+)\[([^\]]+)\]`; returns
groups 1 and 2. -/
def findAction : List Char → Option (List Char × List Char)
  | [] => none
  | c :: rest =>
    if "Action:".data.isPrefixOf (c :: rest) then
      match actionTail ((c :: rest).drop 7) with
      | some r => some r
      | none => findAction rest
    else findAction rest

/-- Stripped capture (`group(1).strip()`) of the `Answer:` regex, when it matches. -/
def answerStripped (reply : String) : Option String :=
  (findAnswer reply.data).map (fun l => (⟨pyStripL l⟩ : String))

/-! ## The Rule Engine (`Agent`)

The structured query is a Python dict evaluated from the query string;
the embedding models the fields the engine reads.  `FinData` is the
nested `data` object of the financial domain (Python floats modelled
as exact rationals); absent keys are `none`. -/

/-- The financial `data` sub-object: `expectedReturn`, `riskLevel`,
`pastReturns`. -/
structure FinData where
  expectedReturn : Option ℚ
  riskLevel : Option String
  pastReturns : Option (List ℚ)
deriving DecidableEq

/-- The structured query object: every key the rule engine reads.
`chestXRay` stands for `testResults.get("chestXRay")`. -/
structure UserInput where
  reasoningType : Option String
  data : FinData
  symptoms : List String
  chestXRay : Option String
  caseType : Option String
  signed : Option Bool
  consideration : Option Bool
  evidence : Option String
deriving DecidableEq

/-- The empty dict (`{}`): every key absent. -/
def emptyFin : FinData := ⟨none, none, none⟩

/-- A query object with no keys set. -/
def emptyInput : UserInput := ⟨none, emptyFin, [], none, none, none, none, none⟩

/-- One record of the static `medical_cases` table. -/
structure MedCase where
  symptoms : List String
  diagnosis : String

/-- The `medical_cases` table of the source. -/
def medical_cases : List MedCase :=
  [⟨["fever", "cough", "headache"], "Flu"⟩,
   ⟨["fever", "cough"], "Common Cold"⟩,
   ⟨["fever", "rash"], "Measles"⟩,
   ⟨["cough", "shortness of breath"], "Asthma"⟩]

/-- One record of the static `legal_cases` table (`signed`/`evidence`
are optional keys). -/
structure LegalCase where
  caseType : String
  signed : Option Bool
  evidence : Option String
  outcome : String

/-- The `legal_cases` table of the source. -/
def legal_cases : List LegalCase :=
  [⟨"contract", some false, none, "Contract declared void (no signature)"⟩,
   ⟨"contract", some true, none, "Contract enforced by court"⟩,
   ⟨"criminal", none, some "weak", "Not guilty verdict"⟩,
   ⟨"criminal", none, some "strong", "Guilty verdict"⟩,
   ⟨"civil", none, none, "Case settled out of court"⟩]

/-- The source's `Agent.apply_deductive`.  Python `is False`/`is True` checks are
`= some false` / `= some true`; `consideration != False` is
`≠ some false` (`None != False` is `True` in Python). -/
def apply_deductive (domain : String) (u : UserInput) : Option String :=
  if domain = "financial" then
    match u.data.expectedReturn, u.data.riskLevel with
    | some e, some k =>
      if e > (0.05 : ℚ) ∧ k = "low" then
        some "Decision: Invest (high return, low risk)"
      else if e < 0 ∨ k = "high" then
        some "Decision: Do Not Invest (insufficient return or high risk)"
      else some "Decision: Hold (moderate return/risk)"
    | _, _ => none
  else if domain = "medical" then
    if "fever" ∈ u.symptoms ∧ "rash" ∈ u.symptoms then
      some "Diagnosis: Measles (fever + rash)"
    else if "fever" ∈ u.symptoms ∧ "cough" ∈ u.symptoms ∧ u.chestXRay = some "patchy" then
      some "Diagnosis: Pneumonia (fever, cough, patchy x-ray)"
    else if "chest pain" ∈ u.symptoms ∧ "shortness of breath" ∈ u.symptoms then
      some "Diagnosis: Possible Heart Attack (chest pain + breathing issues)"
    else none
  else if domain = "legal" then
    if u.caseType = some "contract" ∧ u.signed = some false then
      some "Legal Outcome: Contract invalid (no signature)"
    else if u.caseType = some "contract" ∧ u.signed = some true ∧ u.consideration ≠ some false then
      some "Legal Outcome: Contract likely enforceable"
    else if u.caseType = some "criminal" ∧ u.evidence = some "strong" then
      some "Legal Outcome: Likely conviction"
    else if u.caseType = some "criminal" ∧ u.evidence = some "weak" then
      some "Legal Outcome: Likely acquittal"
    else none
  else none

/-- The value `apply_inductive` returns: a decision string or the
structured estimate dict
`{estimatedReturn, estimatedRisk, note: "Inductive estimates (no direct rule applied)"}`
(the `note` is the fixed string, carried implicitly). -/
inductive IndValue
  | str (s : String)
  | estimate (r : Option ℚ) (k : Option String)
deriving DecidableEq

/-- A financial query object holding only derived
`{"data": {"expectedReturn": e, "riskLevel": k}}`, as built by the
re-run inside `apply_inductive`. -/
def derivedInput (e : ℚ) (k : String) : UserInput :=
  ⟨none, ⟨some e, some k, none⟩, [], none, none, none, none, none⟩

/-- The source's `Agent.apply_inductive`.  For the financial domain the source
compares `std_dev = variance ** 0.5` against `0.1` and `0.05`; since
the square root is strictly monotone on nonnegative reals this is the
comparison of `variance` against `0.01` and `0.0025`, which is how the
exact-rational embedding states it. -/
def apply_inductive (domain : String) (u : UserInput) : Option IndValue :=
  if domain = "financial" then
    let d := u.data
    let expReturn : Option ℚ :=
      match d.expectedReturn, d.pastReturns with
      | none, some rs => if rs.isEmpty then none else some (rs.sum / (rs.length : ℚ))
      | e, _ => e
    let risk : Option String :=
      match d.riskLevel, d.pastReturns with
      | none, some rs =>
        if 1 < rs.length then
          let mean := expReturn.getD (rs.sum / (rs.length : ℚ))
          let variance := (rs.map (fun r => (r - mean) ^ 2)).sum / (rs.length : ℚ)
          some (if variance > (0.01 : ℚ) then "high"
                else if variance < (0.0025 : ℚ) then "low" else "medium")
        else none
      | k, _ => k
    let decision : Option String :=
      match expReturn, risk with
      | some e, some k => apply_deductive "financial" (derivedInput e k)
      | _, _ => none
    match decision with
    | some s => some (.str s)
    | none => some (.estimate expReturn risk)
  else if domain = "medical" then
    let best := medical_cases.foldl
      (fun best c =>
        let cnt := (c.symptoms.filter (fun s => u.symptoms.contains s)).length
        let better : Bool := match best with
          | none => true
          | some b => decide (Prod.snd b < cnt)
        if 0 < cnt ∧ better = true then some (c.diagnosis, cnt) else best)
      (none : Option (String × ℕ))
    match best with
    | some (d, _) => some (.str ("Possible Diagnosis: " ++ d ++ " (similar cases)"))
    | none => some (.str "Diagnosis unclear (no close match)")
  else if domain = "legal" then
    match legal_cases.find? (fun rec0 =>
        (some rec0.caseType == u.caseType) &&
        ((rec0.signed.isSome && (rec0.signed == u.signed)) ||
         (rec0.evidence.isSome && (rec0.evidence == u.evidence)) ||
         (rec0.signed == none && rec0.evidence == none))) with
    | some rec0 => some (.str ("Likely Outcome: " ++ rec0.outcome ++ " (similar past case)"))
    | none => some (.str "Outcome unclear (no similar cases)")
  else none

/-- The `result` value of `process_query`: a string, the estimate
dict, or Python `None`. -/
inductive ResultVal
  | str (s : String)
  | estimate (r : Option ℚ) (k : Option String)
  | noneV
deriving DecidableEq

/-- Coerce an inductive-step value into a `result` value. -/
def IndValue.toResultVal : IndValue → ResultVal
  | .str s => .str s
  | .estimate r k => .estimate r k

/-- The `result` for the default (`both`) branch, where `ind` may be
Python `None`. -/
def optIndToVal : Option IndValue → ResultVal
  | none => .noneV
  | some v => v.toResultVal

/-- The dict returned by `process_query`: a `result` and an optional
`reasoningUsed` tag. -/
structure ProcessResult where
  result : ResultVal
  reasoningUsed : Option String
deriving DecidableEq

/-- The source's `Agent.process_query`.  A present non-`None` return of
`apply_deductive` is always a nonempty string and a present return of
`apply_inductive` is a nonempty string or a 3-key dict, so Python's
truthiness tests coincide with the `Option` matches. -/
def process_query (domain : String) (u : UserInput) : ProcessResult :=
  let rt := u.reasoningType.getD "both"
  if rt = "deductive" then
    ⟨.str ((apply_deductive domain u).getD
      "No deductive conclusion possible with given info."), none⟩
  else if rt = "inductive" then
    match apply_inductive domain u with
    | some v => ⟨v.toResultVal, none⟩
    | none => ⟨.str "No inductive conclusion possible with given info.", none⟩
  else
    match apply_deductive domain u with
    | some d => ⟨.str d, some "deductive"⟩
    | none => ⟨optIndToVal (apply_inductive domain u), some "inductive"⟩

/-- Financial query object carrying only `pastReturns`. -/
def pastReturnsInput (rs : List ℚ) : UserInput :=
  ⟨none, ⟨none, none, some rs⟩, [], none, none, none, none, none⟩

/-! ## Transcript, tools and the ReAct loop (`run_agent`) -/

/-- Message roles. -/
inductive Role
  | system | user | assistant
deriving DecidableEq

/-- Role-tagged `ChatMessage` from the source. -/
structure ChatMessage where
  role : Role
  content : String
deriving DecidableEq

/-- Registered `Tool` from the source: a named, described capability. -/
structure Tool where
  name : String
  description : String
  run : String → String

/-- The tool registry of the source: the single Calculator tool. -/
def tools : List Tool :=
  [⟨"Calculator",
    "Performs arithmetic calculations. Usage: Calculator[expression]",
    calculator_run⟩]

/-- The source's `tool_descriptions` string. -/
def tool_descriptions : String :=
  String.intercalate "\n" (tools.map (fun t => t.name ++ ": " ++ t.description))

/-- The tool-use protocol system prompt of the source. -/
def system_prompt : String :=
  "You are a smart assistant with access to these tools:\n"
  ++ tool_descriptions
  ++ "\n\nWhen answering user, you may use tools to gather info or calculate results.\n"
  ++ "Follow this format exactly:\n"
  ++ "Thought: <reasoning>\n"
  ++ "Action: <ToolName>[<input>]\n"
  ++ "Observation: <tool result>\n"
  ++ "...(repeat as needed)...\n"
  ++ "Thought: <final reasoning>\n"
  ++ "Answer: <final answer>\n\n"
  ++ "Only one action at a time, wait for observation before continuing.\n"
  ++ "If answer is known or enough info is gathered, output final Answer.\n"

/-- Tool dispatch inside the loop: case-insensitive name lookup; an
unknown name synthesizes the `Tool "<name>" not found` observation
(the tool itself is total here, so the `except` around `found_tool.run`
has no effect to model). -/
def runTool (toolName input : String) : String :=
  match tools.find? (fun t => t.name.toLower == toolName.toLower) with
  | none => "Tool \x22" ++ toolName ++ "\x22 not found"
  | some t => t.run input

/-- How one assistant reply is classified, mirroring the source order:
the `Answer:` regex first (its stripped capture must be truthy, i.e.
nonempty), then the `Action:` regex, else the implicit-final-answer
fallthrough. -/
inductive StepKind
  | ans (s : String)
  | act (toolName input : String)
  | implicit
deriving DecidableEq

/-- Classification of the `Action:` part (reached only when the
`Answer:` branch did not fire). -/
def actionClass (reply : String) : StepKind :=
  match findAction reply.data with
  | some (n, i) => .act (⟨pyStripL n⟩ : String) (⟨pyStripL i⟩ : String)
  | none => .implicit

/-- Classify a reply exactly as the loop body does: `answer_match`
(`group(1).strip()`) is tested for truthiness — a matched but empty
capture falls through to the `Action:` check. -/
def classifyReply (reply : String) : StepKind :=
  match answerStripped reply with
  | some a => if a = "" then actionClass reply else .ans a
  | none => actionClass reply

/-- The outcome of `run_agent`: a returned answer string, or the
`ValueError` the source raises when the step limit is exhausted. -/
inductive AgentResult
  | answer (s : String)
  | failure (s : String)
deriving DecidableEq

/-- The message of the `ValueError` raised on step-limit exhaustion. -/
def stepLimitMsg : String := "No final answer produced within step limit."

/-- The ReAct loop of `run_agent`, with the completion backend as an
oracle from the current transcript to the assistant's reply string
(both `call_gemini` and `call_openrouter` return strings, error texts
included).  Returns the result together with the final transcript. -/
def runLoop (b : List ChatMessage → String) :
    ℕ → List ChatMessage → AgentResult × List ChatMessage
  | 0, msgs => (.failure stepLimitMsg, msgs)
  | n + 1, msgs =>
    let reply := b msgs
    let msgs2 := msgs ++ [⟨.assistant, reply⟩]
    match classifyReply reply with
    | .ans a => (.answer a, msgs2)
    | .implicit => (.answer (pyStrip reply), msgs2)
    | .act toolName input =>
        runLoop b n (msgs2 ++ [⟨.system, "Observation: " ++ runTool toolName input⟩])

/-! Rendering of the preliminary reasoning result.  The source builds
the injected message with an f-string over the Python dict returned by
`process_query`; the functions below produce that dict's `repr`
(single-quoted keys and strings, `None` for absent values; the float
rendering abstracts CPython's shortest-round-trip repr by the exact
decimal expansion of the rational, which no claim depends on). -/

/-- Python `repr` of an optional string value. -/
def reprOptStr : Option String → String
  | none => "None"
  | some s => "\x27" ++ s ++ "\x27"

/-- Python `repr` of an optional float value. -/
def reprOptQ : Option ℚ → String
  | none => "None"
  | some q => floatRepr q

/-- Python `repr` of a `result` value. -/
def reprResultVal : ResultVal → String
  | .str s => "\x27" ++ s ++ "\x27"
  | .noneV => "None"
  | .estimate r k =>
      "\x7b\x27estimatedReturn\x27: " ++ reprOptQ r
      ++ ", \x27estimatedRisk\x27: " ++ reprOptStr k
      ++ ", \x27note\x27: \x27Inductive estimates (no direct rule applied)\x27\x7d"

/-- Python `repr` of the dict returned by `process_query`. -/
def reprProcessResult (p : ProcessResult) : String :=
  "\x7b\x27result\x27: " ++ reprResultVal p.result
  ++ (match p.reasoningUsed with
      | none => ""
      | some u => ", \x27reasoningUsed\x27: \x27" ++ u ++ "\x27")
  ++ "\x7d"

/-- The outcome of `eval(query)` in `run_agent`: `none` when the query
is not a dict carrying a `domain` key (including parse failures, which
the source swallows), otherwise the domain value and the parsed object.
The literal-evaluation facility itself is an external-language feature;
its outcome is what the orchestrator consumes. -/
structure ParsedQuery where
  domain : String
  input : UserInput

/-- The transcript as it stands when the ReAct loop starts:
`[system prompt, user query]`, and — when the query parsed to a dict
with a truthy `domain` value — the
`Preliminary agentic reasoning result: ...` system message **appended
after the user message** (`messages.append` in the source). -/
def initialTranscript (query : String) (parsed : Option ParsedQuery) : List ChatMessage :=
  let base : List ChatMessage := [⟨.system, system_prompt⟩, ⟨.user, query⟩]
  match parsed with
  | some pq =>
      if pq.domain ≠ "" then
        base ++ [⟨.system, "Preliminary agentic reasoning result: "
                  ++ reprProcessResult (process_query pq.domain pq.input)⟩]
      else base
  | none => base

/-- The source's `run_agent`: build the initial transcript, then run the ReAct loop
with a bound of 10 round trips. -/
def run_agent (b : List ChatMessage → String) (query : String)
    (parsed : Option ParsedQuery) : AgentResult × List ChatMessage :=
  runLoop b 10 (initialTranscript query parsed)

/-! ## The Gemini completion client (`call_gemini`)

`call_gemini` never raises: every failure mode is returned as a plain
string.  The HTTP exchange is modelled by its observable outcome: a
raised `requests` exception (carried as its message) or a response
with a status code, a raw text and a parsed JSON body restricted to
the fields the client reads. -/

/-- A JSON value for the `text` field: a string or some non-string
value (which fails the `isinstance(content, str)` check). -/
inductive PyText
  | str (s : String)
  | nonStr
deriving DecidableEq

/-- One element of a candidate's `content.parts` (its `text` key may
be absent). -/
structure GeminiPart where
  text : Option PyText
deriving DecidableEq

/-- One element of `candidates`: `parts` is `none` when either
`content` or `content.parts` is absent (both default through
`.get(..)` to an extracted text of `""`). -/
structure GeminiCandidate where
  parts : Option (List GeminiPart)
deriving DecidableEq

/-- The response: status code, raw body text (used in the non-200
error message) and parsed `candidates`. -/
structure GeminiHttp where
  status : ℕ
  text : String
  candidates : List GeminiCandidate
deriving DecidableEq

/-- Extraction of `candidates[0].get("content", {}).get("parts", [{}])[0].get("text", "")`
followed by the `isinstance` check: `ok (some s)` is an extracted
string, `ok none` a non-string `text` value, `err` the `IndexError`
raised by `[0]` on a present-but-empty `parts` list. -/
def extractContent (c : GeminiCandidate) : ERes (Option String) :=
  match c.parts with
  | none => .ok (some "")
  | some [] => .err "list index out of range"
  | some (p :: _) =>
      match p.text with
      | none => .ok (some "")
      | some (.str s) => .ok (some s)
      | some .nonStr => .ok none

/-- The source's `call_gemini`: each failure mode yields its distinct descriptive
string; a `requests`-level exception (modelled as `ERes.err`) is
caught by the `except` clause and formatted as `f"Gemini API error: {e}"`. -/
def call_gemini (apiKey : Option String) (resp : ERes GeminiHttp) : String :=
  match apiKey with
  | none => "Gemini API key not configured."
  | some _ =>
    match resp with
    | .err e => "Gemini API error: " ++ e
    | .ok r =>
      if r.status ≠ 200 then
        "Gemini API error: " ++ toString r.status ++ " - " ++ r.text
      else
        match r.candidates with
        | [] => "Gemini API returned no candidates."
        | c :: _ =>
          match extractContent c with
          | .err e => "Gemini API error: " ++ e
          | .ok none => "Gemini API response missing or invalid content."
          | .ok (some s) => s

/-! ## Remaining definitions used by the theorems -/

/-- The financial deductive rule chain as a total function of the two
present inputs (first match wins, in source order). -/
def finDecision (e : ℚ) (k : String) : String :=
  if e > (0.05 : ℚ) ∧ k = "low" then "Decision: Invest (high return, low risk)"
  else if e < 0 ∨ k = "high" then "Decision: Do Not Invest (insufficient return or high risk)"
  else "Decision: Hold (moderate return/risk)"

/-- Arithmetic mean of a list of rationals (`sum(returns)/len(returns)`). -/
def listMean (rs : List ℚ) : ℚ := rs.sum / (rs.length : ℚ)

/-- Population variance: sum of squared deviations from the mean,
divided by `N`. -/
def listVariance (rs : List ℚ) : ℚ :=
  (rs.map (fun r => (r - listMean rs) ^ 2)).sum / (rs.length : ℚ)

/-- Risk level derived from the population variance; the source
compares `variance ** 0.5` with `0.1` and `0.05`, equivalent to these
squared thresholds. -/
def riskOfVariance (v : ℚ) : String :=
  if v > (0.01 : ℚ) then "high" else if v < (0.0025 : ℚ) then "low" else "medium"

/-- Whether an `apply_inductive` result is the structured estimate. -/
def isEstimateOpt : Option IndValue → Bool
  | some (.estimate _ _) => true
  | _ => false

/-- Whether a classified reply is a tool action. -/
def StepKind.isAct : StepKind → Bool
  | .act _ _ => true
  | _ => false

/-- The `pastReturns` list of the spec's financial example. -/
def returns5 : List ℚ := [0.05, 0.06, 0.07, 0.04, 0.05]

/-- A reply carrying both an `Action:` marker and a (later, nonempty)
`Answer:` marker. -/
def replyWithBoth : String := "Thought: done Action: Calculator[2+3] Answer: 5"

/-- A backend oracle that always proposes a tool action. -/
def bAct : List ChatMessage → String := fun _ => "Action: Calculator[1+1]"

/-- A backend oracle whose reply is the `call_gemini` output for a
500-status upstream response. -/
def bGem : List ChatMessage → String :=
  fun _ => call_gemini (some "key") (.ok ⟨500, "Internal Server Error", []⟩)

/-- A backend oracle that immediately answers `hello`. -/
def bAns : List ChatMessage → String := fun _ => "Answer: hello"

/-! ## Theorems for the claims -/

/-- One loop step on a reply with neither marker: the reply is
appended as an assistant message and returned, stripped, as the final
answer. -/
theorem runLoop_implicit_step (b : List ChatMessage → String) (msgs : List ChatMessage)
    (n : ℕ) (h : classifyReply (b msgs) = .implicit) :
    runLoop b (n + 1) msgs
      = (.answer (pyStrip (b msgs)), msgs ++ [⟨.assistant, b msgs⟩]) := by
  simp [runLoop, h]

/-- Claim C1, counterexample.  For a structured query with a domain
key, the roles of the initial transcript are
`[system, user, system]`: the injected reasoning message sits *after*
the user message, so the transcript does not have the claimed shape
`[protocol system, injected system, user]`. -/
theorem C1_counterexample :
    (initialTranscript "hi" (some ⟨"financial", emptyInput⟩)).map ChatMessage.role
        = [.system, .user, .system] ∧
    [Role.system, Role.user, Role.system] ≠ [Role.system, Role.system, Role.user] := by
  with_unfolding_all decide

/-- Claim C1, amended: the transcript at the start of the ReAct loop
is exactly one protocol system message followed by the user message;
for a structured query with a truthy domain key, exactly one
`Preliminary agentic reasoning result: ...` system message is appended
*after* the user message (not between the protocol message and the
user message); otherwise there is no third message. -/
theorem initialTranscript_order (q : String) (pq : ParsedQuery) (h : pq.domain ≠ "") :
    initialTranscript q (some pq)
        = [⟨.system, system_prompt⟩, ⟨.user, q⟩,
           ⟨.system, "Preliminary agentic reasoning result: "
              ++ reprProcessResult (process_query pq.domain pq.input)⟩] ∧
    initialTranscript q none = [⟨.system, system_prompt⟩, ⟨.user, q⟩] := by
  constructor
  · simp [initialTranscript, h]
  · rfl

/-- Claim C1 witness: the amended shape at a concrete structured
query. -/
theorem initialTranscript_order_witness :
    initialTranscript "hi" (some ⟨"financial", emptyInput⟩)
        = [⟨.system, system_prompt⟩, ⟨.user, "hi"⟩,
           ⟨.system, "Preliminary agentic reasoning result: "
              ++ reprProcessResult (process_query "financial" emptyInput)⟩] ∧
    initialTranscript "hi" none = [⟨.system, system_prompt⟩, ⟨.user, "hi"⟩] :=
  initialTranscript_order "hi" ⟨"financial", emptyInput⟩ (by decide)

/-- Claim C2, counterexample.  A non-200 upstream response makes
`call_gemini` return the string `"Gemini API error: 500 - ..."`;
`run_agent` appends that string to the transcript as an assistant
message, parses it (finding neither marker) and returns it as the
final answer — contradicting "never appended ... and never ...
returned as the final answer". -/
theorem C2_counterexample :
    run_agent bGem "hi" none
      = (.answer "Gemini API error: 500 - Internal Server Error",
         [⟨.system, system_prompt⟩, ⟨.user, "hi"⟩,
          ⟨.assistant, "Gemini API error: 500 - Internal Server Error"⟩]) := by
  have h1 : bGem (initialTranscript "hi" none)
      = "Gemini API error: 500 - Internal Server Error" := by decide
  have h2 : classifyReply (bGem (initialTranscript "hi" none)) = .implicit := by
    rw [h1]
    decide
  show runLoop bGem (9 + 1) (initialTranscript "hi" none) = _
  rw [runLoop_implicit_step bGem (initialTranscript "hi" none) 9 h2, h1]
  have h3 : initialTranscript "hi" none = [⟨.system, system_prompt⟩, ⟨.user, "hi"⟩] := rfl
  rw [h3]
  have h4 : pyStrip "Gemini API error: 500 - Internal Server Error"
      = "Gemini API error: 500 - Internal Server Error" := by decide
  rw [h4]
  rfl

/-- Claim C2, amended: each completion-backend failure mode (missing
key, transport exception, non-2xx status, empty candidate list,
non-string content) yields its own distinct descriptive string; but
the orchestrator consumes that string as the assistant reply — it is
appended to the transcript as an assistant message and, containing
neither marker, is returned as the final answer through the
implicit-answer path. -/
theorem call_gemini_failure_modes :
    (∀ resp, call_gemini none resp = "Gemini API key not configured.") ∧
    (∀ k e, call_gemini (some k) (.err e) = "Gemini API error: " ++ e) ∧
    (∀ (k : String) (r : GeminiHttp), r.status ≠ 200 →
      call_gemini (some k) (.ok r)
        = "Gemini API error: " ++ toString r.status ++ " - " ++ r.text) ∧
    (∀ (k : String) (r : GeminiHttp), r.status = 200 → r.candidates = [] →
      call_gemini (some k) (.ok r) = "Gemini API returned no candidates.") ∧
    (∀ (k : String) (r : GeminiHttp) c cs p ps, r.status = 200 →
      r.candidates = c :: cs → c.parts = some (p :: ps) → p.text = some .nonStr →
      call_gemini (some k) (.ok r) = "Gemini API response missing or invalid content.") ∧
    (∀ b msgs n, classifyReply (b msgs) = .implicit →
      runLoop b (n + 1) msgs
        = (.answer (pyStrip (b msgs)), msgs ++ [⟨.assistant, b msgs⟩])) := by
  refine ⟨fun resp => rfl, fun k e => rfl, ?_, ?_, ?_, ?_⟩
  · intro k r h
    simp [call_gemini, h]
  · intro k r h hc
    simp [call_gemini, h, hc]
  · intro k r c cs p ps h hc hp ht
    simp [call_gemini, h, hc, extractContent, hp, ht]
  · intro b msgs n h
    simp [runLoop, h]

/-- Claim C2 witness: the failure strings at concrete inputs, and a
markerless upstream-error string returned as the final answer with the
transcript carrying it as an assistant message. -/
theorem call_gemini_failure_modes_witness :
    call_gemini (some "k") (.ok ⟨500, "boom", []⟩) = "Gemini API error: 500 - boom" ∧
    call_gemini (some "k") (.ok ⟨200, "", []⟩) = "Gemini API returned no candidates." ∧
    runLoop (fun _ => "Gemini API error: 500 - boom") 10 [⟨.user, "q"⟩]
      = (.answer "Gemini API error: 500 - boom",
         [⟨.user, "q"⟩, ⟨.assistant, "Gemini API error: 500 - boom"⟩]) := by
  refine ⟨?_, ?_, ?_⟩
  · exact call_gemini_failure_modes.2.2.1 "k" ⟨500, "boom", []⟩ (by decide)
  · exact call_gemini_failure_modes.2.2.2.1 "k" ⟨200, "", []⟩ rfl rfl
  · have h := call_gemini_failure_modes.2.2.2.2.2
      (fun _ => "Gemini API error: 500 - boom") [⟨.user, "q"⟩] 9 (by decide)
    rw [h]
    decide

/-- Claim C3 (confirmed): whenever the `Answer:\s*(.*)$` regex matches
the assistant reply with a capture that is nonempty after stripping
(i.e. the marker is followed by actual final content), the loop
returns that stripped capture immediately and appends only the
assistant message — in particular no tool runs and no `Observation:`
message is added, even if the same reply also contains an `Action:`
marker (a matched-but-whitespace-only capture instead falls through to
the `Action:` check, which the claim's `<text>` excludes). -/
theorem answer_marker_priority (b : List ChatMessage → String) (msgs : List ChatMessage)
    (n : ℕ) (a : String) (h : answerStripped (b msgs) = some a) (ha : a ≠ "") :
    runLoop b (n + 1) msgs = (.answer a, msgs ++ [⟨.assistant, b msgs⟩]) := by
  simp [runLoop, classifyReply, h, ha]

/-- Claim C3 witness: a reply containing both markers (`Action:`
before `Answer: 5`) terminates with answer `5` and no tool execution;
the `Action:` regex does match the same reply. -/
theorem answer_marker_priority_witness :
    runLoop (fun _ => replyWithBoth) 10 (initialTranscript "hi" none)
        = (.answer "5", initialTranscript "hi" none ++ [⟨.assistant, replyWithBoth⟩]) ∧
    (findAction replyWithBoth.data).isSome = true :=
  ⟨answer_marker_priority (fun _ => replyWithBoth) (initialTranscript "hi" none) 9 "5"
      (by decide) (by decide),
   by decide⟩

/-- Claim C4, counterexample.  On
`{pastReturns: [0.05, 0.06, 0.07, 0.04, 0.05]}` the derived values are
mean `0.054` and risk `low`, which match the deductive Invest rule
(`0.054 > 0.05` and low risk), so `apply_inductive` returns the
decision string — not the claimed structured estimate. -/
theorem C4_counterexample :
    apply_inductive "financial" (pastReturnsInput returns5)
        = some (.str "Decision: Invest (high return, low risk)") ∧
    isEstimateOpt ( apply_inductive "financial" (pastReturnsInput returns5)) = false := by
  with_unfolding_all decide

/-- The financial deductive branch on a derived-values-only input is
the total rule chain. -/
theorem apply_deductive_derivedInput (e : ℚ) (k : String) :
    apply_deductive "financial" (derivedInput e k) = some (finDecision e k) := by
  simp [apply_deductive, derivedInput, finDecision, apply_ite (Option.some (α := String))]

/-- Claim C4, amended: with `expectedReturn`/`riskLevel` absent and a
`pastReturns` list of at least two numbers, `apply_inductive` derives
the expected return as the arithmetic mean and the risk level from the
population standard deviation (thresholds `> 0.10` high, `< 0.05` low,
else medium), then re-runs the deductive rules on the derived values
and returns that decision (for the spec's example input the derived
values trigger Invest, so no estimate record is produced). -/
theorem apply_inductive_derivation (rs : List ℚ) (h : 1 < rs.length) :
    apply_inductive "financial" (pastReturnsInput rs)
      = some (.str (finDecision (listMean rs) (riskOfVariance (listVariance rs)))) := by
  have hne : rs.isEmpty = false := by
    cases rs with
    | nil => simp at h
    | cons a l => rfl
  simp [apply_inductive, pastReturnsInput, hne, h, apply_deductive_derivedInput,
    listMean, listVariance, riskOfVariance]

/-- Claim C4 witness: the amended derivation at the spec's example
list. -/
theorem apply_inductive_derivation_witness :
    1 < returns5.length ∧
    apply_inductive "financial" (pastReturnsInput returns5)
      = some (.str (finDecision (listMean returns5) (riskOfVariance (listVariance returns5)))) :=
  ⟨by decide, apply_inductive_derivation returns5 (by decide)⟩

/-- Claim C5 (confirmed): with both fields present the financial
deductive rules are the first-match-wins chain
(Invest if `expectedReturn > 0.05` and low risk; else Do Not Invest if
`expectedReturn < 0` or high risk; else Hold); with either field
absent the result is no conclusion. -/
theorem apply_deductive_financial_rules (u : UserInput) :
    (∀ e k, u.data.expectedReturn = some e → u.data.riskLevel = some k →
      apply_deductive "financial" u = some (finDecision e k)) ∧
    ((u.data.expectedReturn = none ∨ u.data.riskLevel = none) →
      apply_deductive "financial" u = none) := by
  constructor
  · intro e k he hk
    simp [apply_deductive, he, hk, finDecision, apply_ite (Option.some (α := String))]
  · intro h
    rcases h with h | h
    · simp [apply_deductive, h]
    · cases hr : u.data.expectedReturn <;> simp [apply_deductive, h, hr]

/-- Claim C5 witness: `{expectedReturn: 0.06, riskLevel: "low"}`
yields the Invest decision, which contains `"Invest"` and does not
contain `"Do Not Invest"`. -/
theorem apply_deductive_financial_rules_witness :
    apply_deductive "financial" (derivedInput 0.06 "low") = some (finDecision 0.06 "low") ∧
    finDecision 0.06 "low" = "Decision: Invest (high return, low risk)" ∧
    strContains (finDecision 0.06 "low") "Invest" = true ∧
    strContains (finDecision 0.06 "low") "Do Not Invest" = false := by
  refine ⟨(apply_deductive_financial_rules (derivedInput 0.06 "low")).1 0.06 "low" rfl rfl,
    ?_, ?_, ?_⟩
  all_goals with_unfolding_all decide

/-- Claim C6 (confirmed): any input with a character outside the
whitelist `{digits, '.', '+', '-', '*', '/', '(', ')', space}` yields
exactly `"Invalid expression"` (the guard runs before any evaluation);
and every input whatsoever produces a string — the invalid-marker, a
stringified numeric value, or an `"Error: ..."` string — never an
escaping exception. -/
theorem calculator_whitelist_guard (s : String) :
    ((∃ c ∈ s.data, c ∉ calcWhitelist) → calculator_run s = "Invalid expression") ∧
    (calculator_run s = "Invalid expression" ∨
      (∃ v, calculator_run s = pyStr v) ∨ ∃ m, calculator_run s = "Error: " ++ m) := by
  constructor
  · intro h
    have hall : s.data.all (fun ch => calcWhitelist.contains ch) = false := by
      rcases h with ⟨c, hc, hnc⟩
      simp only [List.all_eq_false]
      exact ⟨c, hc, by simpa using hnc⟩
    unfold calculator_run
    rw [hall]
    simp
  · by_cases hall : s.data.all (fun ch => calcWhitelist.contains ch) = true
    · cases hev : pyEval s with
      | ok v =>
        refine Or.inr (Or.inl ⟨v, ?_⟩)
        unfold calculator_run
        rw [hall, hev]
        simp
      | err m =>
        refine Or.inr (Or.inr ⟨m, ?_⟩)
        unfold calculator_run
        rw [hall, hev]
        simp
    · left
      rw [Bool.not_eq_true] at hall
      unfold calculator_run
      rw [hall]
      simp

/-- Claim C6 witness: `"2+x"` contains a non-whitelisted character and
is rejected with exactly `"Invalid expression"`. -/
theorem calculator_whitelist_guard_witness :
    (∃ c ∈ "2+x".data, c ∉ calcWhitelist) ∧ calculator_run "2+x" = "Invalid expression" :=
  ⟨⟨'x', by decide, by decide⟩,
   (calculator_whitelist_guard "2+x").1 ⟨'x', by decide, by decide⟩⟩

/-- Claim C7 (confirmed): on whitelisted input the tool returns the
Python evaluation of the expression — the exact numeric result
stringified when evaluation succeeds (standard precedence and
parentheses, per the embedded grammar), and `"Error: <description>"`
when evaluation fails (division by zero, malformed syntax). -/
theorem calculator_evaluates (s : String)
    (hw : s.data.all (fun ch => calcWhitelist.contains ch) = true) :
    (∀ v, pyEval s = .ok v → calculator_run s = pyStr v) ∧
    (∀ m, pyEval s = .err m → calculator_run s = "Error: " ++ m) := by
  constructor
  · intro v hv
    unfold calculator_run
    rw [hw, hv]
    simp
  · intro m hm
    unfold calculator_run
    rw [hw, hm]
    simp

/-- Claim C7 witness: `"123*456"` evaluates to `"56088"`, parentheses
and precedence work (`"(2+3)*4"` → `"20"`), and division by zero
yields `"Error: division by zero"`. -/
theorem calculator_evaluates_witness :
    calculator_run "123*456" = "56088" ∧
    calculator_run "(2+3)*4" = "20" ∧
    calculator_run "1/0" = "Error: division by zero" := by
  refine ⟨?_, ?_, ?_⟩
  · have h := (calculator_evaluates "123*456" (by decide)).1 (.int 56088) rfl
    rw [h]
    with_unfolding_all decide
  · have h := (calculator_evaluates "(2+3)*4" (by decide)).1 (.int 20) rfl
    rw [h]
    with_unfolding_all decide
  · exact (calculator_evaluates "1/0" (by decide)).2 "division by zero" rfl

/-- Any backend whose replies always classify as tool actions drives
the loop to fuel exhaustion: the result is the step-limit failure and
each round trip adds exactly two messages (assistant reply and
observation). -/
theorem runLoop_act_exhausts (b : List ChatMessage → String)
    (hb : ∀ m, (classifyReply (b m)).isAct = true) :
    ∀ (n : ℕ) (msgs : List ChatMessage),
      (runLoop b n msgs).1 = .failure stepLimitMsg ∧
      (runLoop b n msgs).2.length = msgs.length + 2 * n := by
  intro n
  induction n with
  | zero => intro msgs; exact ⟨rfl, by simp [runLoop]⟩
  | succ k ih =>
    intro msgs
    have hc := hb msgs
    cases hcl : classifyReply (b msgs) with
    | ans s => rw [hcl] at hc; simp [StepKind.isAct] at hc
    | implicit => rw [hcl] at hc; simp [StepKind.isAct] at hc
    | act tn ti =>
      have hstep := ih (msgs ++ [⟨.assistant, b msgs⟩]
        ++ [⟨.system, "Observation: " ++ runTool tn ti⟩])
      constructor
      · rw [show runLoop b (k + 1) msgs
            = runLoop b k (msgs ++ [⟨.assistant, b msgs⟩]
                ++ [⟨.system, "Observation: " ++ runTool tn ti⟩]) by
            simp [runLoop, hcl]]
        exact hstep.1
      · rw [show runLoop b (k + 1) msgs
            = runLoop b k (msgs ++ [⟨.assistant, b msgs⟩]
                ++ [⟨.system, "Observation: " ++ runTool tn ti⟩]) by
            simp [runLoop, hcl]]
        rw [hstep.2]
        simp
        ring

/-- Claim C8 (confirmed): when every reply classifies as a tool action
(no `Answer:` return and no implicit final answer), `run_agent` stops
after exactly 10 round trips — the final transcript has exactly 20
messages beyond the initial one (10 assistant replies, 10
observations) — and the result is the distinct step-limit failure
(`ValueError("No final answer produced within step limit.")`), never
an answer string. -/
theorem step_limit_failure (b : List ChatMessage → String)
    (hb : ∀ m, (classifyReply (b m)).isAct = true)
    (q : String) (parsed : Option ParsedQuery) :
    (run_agent b q parsed).1 = .failure stepLimitMsg ∧
    (run_agent b q parsed).2.length = (initialTranscript q parsed).length + 20 ∧
    ∀ s, (run_agent b q parsed).1 ≠ .answer s := by
  have h := runLoop_act_exhausts b hb 10 (initialTranscript q parsed)
  refine ⟨h.1, ?_, ?_⟩
  · have h2 := h.2
    rw [show (2 * 10 : ℕ) = 20 from rfl] at h2
    exact h2
  · intro s hcontra
    have := h.1
    rw [show run_agent b q parsed = runLoop b 10 (initialTranscript q parsed) from rfl]
      at hcontra
    rw [hcontra] at this
    exact AgentResult.noConfusion this

/-- Claim C8 witness: a backend that always replies
`"Action: Calculator[1+1]"` exhausts the 10-step budget and fails with
the step-limit message. -/
theorem step_limit_failure_witness :
    (run_agent bAct "hi" none).1 = .failure stepLimitMsg ∧
    (run_agent bAct "hi" none).2.length = (initialTranscript "hi" none).length + 20 := by
  have hb : ∀ m, (classifyReply (bAct m)).isAct = true := fun m => by
    show (classifyReply "Action: Calculator[1+1]").isAct = true
    decide
  exact ⟨(step_limit_failure bAct hb "hi" none).1,
    (step_limit_failure bAct hb "hi" none).2.1⟩

/-- Claim C9, counterexample.  For the structured query with
unsupported domain `"alchemy"` and a backend that replies
`"Answer: hello"`, the final answer is `"hello"`, which does not state
that the domain is unsupported: the code never enforces the claimed
wording, the backend alone determines the answer text. -/
theorem C9_counterexample :
    (run_agent bAns "q" (some ⟨"alchemy", emptyInput⟩)).1 = .answer "hello" ∧
    strContains "hello" "not supported" = false := by
  with_unfolding_all decide

/-- Claim C9, amended: for a domain outside financial/medical/legal,
both rule functions yield no conclusion, the default dispatcher
returns `{result: None, reasoningUsed: "inductive"}`, and the injected
preliminary system message carries exactly that; the eventual final
answer is delivered through the normal success path but its text is
whatever the completion backend produces — the code does not itself
state that the domain is unsupported. -/
theorem unsupported_domain_flow (d : String) (u : UserInput) (q : String)
    (hf : d ≠ "financial") (hm : d ≠ "medical") (hl : d ≠ "legal") :
    apply_deductive d u = none ∧ apply_inductive d u = none ∧
    (u.reasoningType = none → process_query d u = ⟨.noneV, some "inductive"⟩) ∧
    (u.reasoningType = none → d ≠ "" →
      initialTranscript q (some ⟨d, u⟩)
        = [⟨.system, system_prompt⟩, ⟨.user, q⟩,
           ⟨.system, "Preliminary agentic reasoning result: \x7b\x27result\x27: None, \x27reasoningUsed\x27: \x27inductive\x27\x7d"⟩]) := by
  have hd : apply_deductive d u = none := by simp [apply_deductive, hf, hm, hl]
  have hi : apply_inductive d u = none := by simp [apply_inductive, hf, hm, hl]
  have hp : u.reasoningType = none → process_query d u = ⟨.noneV, some "inductive"⟩ := by
    intro hr
    simp [process_query, hr, hd, hi, optIndToVal]
  refine ⟨hd, hi, hp, ?_⟩
  intro hr hdom
  simp [initialTranscript, hdom, hp hr, reprProcessResult, reprResultVal]

/-- Claim C9 witness: the amended facts at domain `"alchemy"`. -/
theorem unsupported_domain_flow_witness :
    apply_deductive "alchemy" emptyInput = none ∧
    apply_inductive "alchemy" emptyInput = none ∧
    process_query "alchemy" emptyInput = ⟨.noneV, some "inductive"⟩ ∧
    initialTranscript "q" (some ⟨"alchemy", emptyInput⟩)
      = [⟨.system, system_prompt⟩, ⟨.user, "q"⟩,
         ⟨.system, "Preliminary agentic reasoning result: \x7b\x27result\x27: None, \x27reasoningUsed\x27: \x27inductive\x27\x7d"⟩] := by
  have h := unsupported_domain_flow "alchemy" emptyInput "q" (by decide) (by decide) (by decide)
  exact ⟨h.1, h.2.1, h.2.2.1 rfl, h.2.2.2 rfl (by decide)⟩

/-- Claim C10 (confirmed): a single-element `pastReturns` with both
direct fields absent derives the expected return as that element, does
not derive a risk level (the standard-deviation branch requires at
least two samples), skips the deductive re-run, and returns the
structured estimate with `estimatedRisk` equal to Python `None`. -/
theorem apply_inductive_single_sample (v : ℚ) :
    apply_inductive "financial" (pastReturnsInput [v]) = some (.estimate (some v) none) := by
  simp [apply_inductive, pastReturnsInput]

/-- Claim C10 witness: the single-sample estimate at `0.05`. -/
theorem apply_inductive_single_sample_witness :
    apply_inductive "financial" (pastReturnsInput [0.05])
      = some (.estimate (some 0.05) none) :=
  apply_inductive_single_sample 0.05
